import Mathlib

/-
  Verification of the AcquaSys backend orchestration core
  (src/server/mqtt-influx-integration.ts and its collaborators
  src/server/routes.ts, src/server/telegram-service.ts,
  src/server/mqtt-broker.ts, src/server/influxdb-client.ts).

  Shallow embedding conventions:
  * JS numbers that carry sensor values, thresholds and efficiencies are
    modelled as rationals (ℚ); timestamps (`Date.now()`, milliseconds) as ℤ.
  * `Record<string, number>` (`lastAlertTimes`) is modelled as an association
    list with most-recent-binding-first semantics.
  * Network effects (MQTT publishes, WebSocket broadcasts, Telegram sends,
    InfluxDB writes) are modelled as explicit output lists / boolean outcome
    parameters; log statements are dropped.
  * Human-readable alert/status message strings (string interpolation with
    `toFixed`) are elided: only the alert type and stable key, which drive all
    control flow, are retained.
-/

namespace AcquaSys

/-- Tri-axial vibration record plus derived RMS magnitude
(interface `MQTTSensorData.vibration` in mqtt-broker.ts). -/
structure Vibration where
  x : ℚ
  y : ℚ
  z : ℚ
  rms : ℚ
deriving DecidableEq, Repr

/-- Inbound sensor reading (interface `MQTTSensorData` in mqtt-broker.ts).
The `efficiency` field is present in the wire type; the orchestration core
overwrites it with its own derived value. -/
structure MQTTSensorData where
  device : String
  timestamp : ℤ
  level : ℚ
  temperature : ℚ
  current : ℚ
  flowRate : ℚ
  pump : Bool
  efficiency : ℚ
  vibration : Vibration
  runtime : ℤ
  heap : ℤ
  rssi : ℤ
deriving DecidableEq, Repr

/-- The integration's `systemConfig` object
(mqtt-influx-integration.ts lines 21-26). -/
structure SystemConfig where
  pumpAutoMode : Bool
  lowWaterThreshold : ℚ
  highWaterThreshold : ℚ
  efficiencyHistory : List ℚ
deriving DecidableEq, Repr

/-- Initial value of `systemConfig`. -/
def defaultSystemConfig : SystemConfig :=
  { pumpAutoMode := true
    lowWaterThreshold := 20
    highWaterThreshold := 95
    efficiencyHistory := [] }

/-- The mutable fields of class `MQTTInfluxIntegration` that the
orchestration logic reads and writes: `systemConfig`, `previousWaterLevel`
and `lastAlertTimes`. -/
structure IntegrationState where
  systemConfig : SystemConfig
  previousWaterLevel : Option ℚ
  lastAlertTimes : List (String × ℤ)
deriving DecidableEq, Repr

/-- `ALERT_COOLDOWN = 10 * 60 * 1000` milliseconds
(mqtt-influx-integration.ts line 29). -/
def ALERT_COOLDOWN : ℤ := 10 * 60 * 1000

/-- `this.lastAlertTimes[alert.key] || 0`
(mqtt-influx-integration.ts line 329): a missing key reads as 0. -/
def lookupAlertTime (table : List (String × ℤ)) (key : String) : ℤ :=
  match table.find? (fun entry => entry.1 == key) with
  | some entry => entry.2
  | none => 0

/-- `this.lastAlertTimes[alert.key] = now`
(mqtt-influx-integration.ts line 342): overwrite-or-insert. -/
def setAlertTime (table : List (String × ℤ)) (key : String) (time : ℤ) :
    List (String × ℤ) :=
  (key, time) :: table.filter (fun entry => !(entry.1 == key))

/-- Append to `efficiencyHistory`, evicting the oldest entry past capacity 20:
`push(...)` then `if (length > 20) shift()`
(mqtt-influx-integration.ts lines 274-275). -/
def pushEfficiency (history : List ℚ) (value : ℚ) : List ℚ :=
  let pushed := history ++ [value]
  if pushed.length > 20 then pushed.drop 1 else pushed

/-- `reduce((a, b) => a + b, 0) / Math.max(1, length)`
(mqtt-influx-integration.ts line 278). -/
def historyAverage (history : List ℚ) : ℚ :=
  history.foldl (· + ·) 0 / ((max 1 history.length : ℕ) : ℚ)

/-- The instantaneous-efficiency computation of `calculateEfficiency`
(mqtt-influx-integration.ts lines 265-272): nominal-power ratio, vibration
and temperature penalties, clamp to [0, 100]. -/
def instantEfficiency (data : MQTTSensorData) : ℚ :=
  let currentPower := data.current * 220
  let idealPower : ℚ := 180
  let raw := idealPower / currentPower * 100
  let afterVibration :=
    if data.vibration.rms > 1 then raw - (data.vibration.rms - 1) * 10 else raw
  let afterTemperature :=
    if data.temperature < 15 ∨ data.temperature > 40 then
      afterVibration - |data.temperature - 55/2| * (1/2)
    else afterVibration
  max 0 (min 100 afterTemperature)

/-- `calculateEfficiency` (mqtt-influx-integration.ts lines 259-280).
Returns the efficiency value together with the updated `systemConfig`.
The guard `if (!data || !data.vibration) return 0` is unreachable for values
of the declared `MQTTSensorData` interface type (`vibration` is a required
object field, hence always truthy), so it has no counterpart here.
If the pump is off or current ≤ 0.1 A the function returns 100.0 without
touching the history; otherwise it pushes the clamped instantaneous
efficiency and returns the running average of the updated history. -/
def calculateEfficiency (config : SystemConfig) (data : MQTTSensorData) :
    ℚ × SystemConfig :=
  if data.pump = false ∨ data.current ≤ 1/10 then
    (100, config)
  else
    let newHistory := pushEfficiency config.efficiencyHistory (instantEfficiency data)
    (historyAverage newHistory, { config with efficiencyHistory := newHistory })

/-- Pump command token published to the device. -/
inductive PumpAction where
  | turnOn
  | turnOff
deriving DecidableEq, Repr

/-- `automaticPumpControl` (mqtt-influx-integration.ts lines 143-156):
the command (if any) issued for one reading. Exactly one `controlPump`
call happens per `some` result. -/
def automaticPumpControl (config : SystemConfig) (data : MQTTSensorData) :
    Option PumpAction :=
  if config.pumpAutoMode = false then none
  else if data.level ≤ config.lowWaterThreshold ∧ data.pump = false then
    some PumpAction.turnOn
  else if data.level ≥ config.highWaterThreshold ∧ data.pump = true then
    some PumpAction.turnOff
  else none

/-- Alert severity (`type` field of the alert objects). -/
inductive AlertType where
  | warning
  | critical
deriving DecidableEq, Repr

/-- One candidate alert: severity and stable cooldown key.  The formatted
message string is presentation-only and elided. -/
structure AlertSpec where
  atype : AlertType
  key : String
deriving DecidableEq, Repr

/-- The candidate-alert construction of `checkAndSendAlerts`
(mqtt-influx-integration.ts lines 284-326), before the cooldown loop:
* leak detection — previous level recorded, pump off, level dropped by
  more than 1.0 point;
* `low_water_critical` / `low_water_pump_fail` — a single if/else-if chain;
* `high_vibration` — RMS > 2.5;
* `high_current` — current > 5.0. -/
def computeAlerts (st : IntegrationState) (data : MQTTSensorData) :
    List AlertSpec :=
  let leakAlerts :=
    match st.previousWaterLevel with
    | some prev =>
        if data.pump = false ∧ prev > data.level ∧ prev - data.level > 1 then
          [⟨AlertType.critical, "leak_detection"⟩]
        else []
    | none => []
  let waterAlerts :=
    if data.level < 10 then
      [⟨AlertType.critical, "low_water_critical"⟩]
    else if data.level < st.systemConfig.lowWaterThreshold ∧
        data.pump = false ∧ st.systemConfig.pumpAutoMode = true then
      [⟨AlertType.warning, "low_water_pump_fail"⟩]
    else []
  let vibrationAlerts :=
    if data.vibration.rms > 5/2 then [⟨AlertType.warning, "high_vibration"⟩]
    else []
  let currentAlerts :=
    if data.current > 5 then [⟨AlertType.warning, "high_current"⟩] else []
  leakAlerts ++ waterAlerts ++ vibrationAlerts ++ currentAlerts

/-- The cooldown/dispatch loop of `checkAndSendAlerts`
(mqtt-influx-integration.ts lines 328-349).  `deliver` models
`telegramBot.sendAlert`, which resolves to a boolean and never rejects
(telegram-service.ts lines 77-103 catch every error internally and return
`false`); consequently the `catch` branch of the loop is unreachable and the
cooldown timestamp is recorded whether or not delivery succeeded.
Returns the updated `lastAlertTimes` and the dispatched alerts as
(key, delivery outcome) pairs, in dispatch order. -/
def processAlerts (now : ℤ) (deliver : String → Bool) :
    List AlertSpec → List (String × ℤ) →
    List (String × ℤ) × List (String × Bool)
  | [], table => (table, [])
  | alert :: rest, table =>
      if now - lookupAlertTime table alert.key > ALERT_COOLDOWN then
        let delivered := deliver alert.key
        let table1 := setAlertTime table alert.key now
        let result := processAlerts now deliver rest table1
        (result.1, (alert.key, delivered) :: result.2)
      else
        processAlerts now deliver rest table

/-- `checkAndSendAlerts` (mqtt-influx-integration.ts lines 283-350):
candidate construction followed by the cooldown/dispatch loop. -/
def checkAndSendAlerts (now : ℤ) (deliver : String → Bool)
    (st : IntegrationState) (data : MQTTSensorData) :
    IntegrationState × List (String × Bool) :=
  let result := processAlerts now deliver (computeAlerts st data) st.lastAlertTimes
  ({ st with lastAlertTimes := result.1 }, result.2)

/-- Outcome of `MQTTInfluxIntegration.controlPump`
(mqtt-influx-integration.ts lines 413-435): MQTT publishes that reach the
wire, WebSocket broadcast event types, and the returned boolean. -/
structure PumpCommandResult where
  publishes : List (String × String)
  broadcasts : List String
  ok : Bool
deriving DecidableEq, Repr

/-- `controlPump` (mqtt-influx-integration.ts lines 413-435).
`mqttBroker.publish` exists in mqtt-broker.ts (lines 169-176), so the first
branch is taken; `publish` silently drops the message when the broker is
disconnected (modelled by `connected`) and never throws, after which
`controlPump` broadcasts a `pumpStatus` event and returns `true`. -/
def controlPump (connected : Bool) (action : String) : PumpCommandResult :=
  { publishes := if connected then [("acquasys/pump/control", action)] else []
    broadcasts := ["pumpStatus"]
    ok := true }

/-- Reply sent back to the chat originator by the `pumpControl` handler. -/
inductive TelegramReply where
  | autoModeRejection
  | pumpToggled (action : String)
  | publishError
deriving DecidableEq, Repr

/-- The `telegramBot.on("pumpControl", ...)` handler
(mqtt-influx-integration.ts lines 178-196): in auto mode the toggle is
rejected with an explanatory reply and `controlPump` is never called;
otherwise `controlPump` runs and its boolean selects the reply. Returns the
updated state, the MQTT publishes, and the reply. -/
def handleTelegramPumpControl (connected : Bool) (st : IntegrationState)
    (action : String) :
    IntegrationState × List (String × String) × TelegramReply :=
  if st.systemConfig.pumpAutoMode = true then
    (st, [], TelegramReply.autoModeRejection)
  else
    let result := controlPump connected action
    if result.ok then (st, result.publishes, TelegramReply.pumpToggled action)
    else (st, result.publishes, TelegramReply.publishError)

/-- HTTP outcome of `POST /api/mqtt/pump/control`. -/
structure ApiPumpControlResult where
  status : ℕ
  success : Bool
  publishes : List (String × String)
deriving DecidableEq, Repr

/-- The `POST /api/mqtt/pump/control` route handler
(routes.ts lines 156-172): validates `action ∈ {on, off}` (400 otherwise),
then calls `controlPump(action)` directly — it never consults
`systemConfig.pumpAutoMode` — and reports `success: true` when `controlPump`
returns `true` (500 with no success otherwise).  The integration state is in
scope via the `mqttInfluxIntegration` singleton but is not read. -/
def apiPumpControl (connected : Bool) (_st : IntegrationState)
    (action : String) : ApiPumpControlResult :=
  if ¬(action = "on" ∨ action = "off") then
    { status := 400, success := false, publishes := [] }
  else
    let result := controlPump connected action
    if result.ok then
      { status := 200, success := true, publishes := result.publishes }
    else
      { status := 500, success := false, publishes := result.publishes }

/-- Everything the `sensorData` handler produces for one reading. -/
structure HandlerResult where
  state : IntegrationState
  pumpCommands : List PumpAction
  dispatched : List (String × Bool)
  attachedEfficiency : ℚ
  wroteToInflux : Bool
  broadcasts : List String
deriving DecidableEq, Repr

/-- The `mqttBroker.on("sensorData", ...)` handler
(mqtt-influx-integration.ts lines 95-130), in source order:
1. `automaticPumpControl` — may call `controlPump` once (which broadcasts a
   `pumpStatus` event) plus an extra `pumpStatus` broadcast;
2. `checkAndSendAlerts` — dispatches alerts, broadcasting `systemAlert` for
   each dispatched alert;
3. `calculateEfficiency` — updates the history, value attached to the reading;
4. durable write — wrapped in its own try/catch (lines 108-116): failure is
   logged only, so `writeOk` feeds nothing but the `wroteToInflux` record;
5. `sensorData` broadcast of the reading with its efficiency;
6. `previousWaterLevel := data.level`. -/
def onSensorReading (now : ℤ) (deliver : String → Bool) (writeOk : Bool)
    (st : IntegrationState) (data : MQTTSensorData) : HandlerResult :=
  let autoCommand := automaticPumpControl st.systemConfig data
  let autoBroadcasts :=
    match autoCommand with
    | some _ => ["pumpStatus", "pumpStatus"]
    | none => []
  let alertResult := checkAndSendAlerts now deliver st data
  let st1 := alertResult.1
  let alertBroadcasts := alertResult.2.map (fun _ => "systemAlert")
  let effResult := calculateEfficiency st1.systemConfig data
  let st2 := { st1 with systemConfig := effResult.2 }
  let st3 := { st2 with previousWaterLevel := some data.level }
  { state := st3
    pumpCommands := autoCommand.toList
    dispatched := alertResult.2
    attachedEfficiency := effResult.1
    wroteToInflux := writeOk
    broadcasts := autoBroadcasts ++ alertBroadcasts ++ ["sensorData"] }

/-- Sequential processing of a stream of timestamped readings through the
`sensorData` handler, collecting every dispatched alert as a (time, key)
pair. -/
def runReadings (deliver : String → Bool) (writeOk : Bool) :
    IntegrationState → List (ℤ × MQTTSensorData) →
    IntegrationState × List (ℤ × String)
  | st, [] => (st, [])
  | st, (t, d) :: rest =>
      let r := onSensorReading t deliver writeOk st d
      let tail := runReadings deliver writeOk r.state rest
      (tail.1, r.dispatched.map (fun p => (t, p.1)) ++ tail.2)

/-- `Math.round(heap / 1024)` (mqtt-influx-integration.ts line 252). -/
def roundKB (heap : ℤ) : ℤ := ⌊(heap : ℚ) / 1024 + 1/2⌋

/-- The snapshot fields assembled by `getCompleteSystemStatus`; the final
HTML string formatting (including the wall-clock `formatInTimeZone` call)
is presentation-only and elided. -/
structure StatusReport where
  level : ℚ
  temperature : ℚ
  current : ℚ
  vibrationRms : ℚ
  pump : Bool
  mode : String
  efficiency : ℚ
  uptimeMin : ℤ
  uptimeSec : ℤ
  heapKB : ℤ
  rssi : ℤ
deriving DecidableEq, Repr

/-- `getCompleteSystemStatus` (mqtt-influx-integration.ts lines 209-256).
`latestData` is the reading recovered from InfluxDB or the broker cache
(an external input); `none` yields the offline message. Otherwise the
handler calls `this.calculateEfficiency(latestData)` — thereby updating
`systemConfig.efficiencyHistory` — and assembles the snapshot. Returns the
(possibly updated) state together with the report. -/
def getCompleteSystemStatus (st : IntegrationState)
    (latestData : Option MQTTSensorData) :
    IntegrationState × Option StatusReport :=
  match latestData with
  | none => (st, none)
  | some data =>
      let effResult := calculateEfficiency st.systemConfig data
      let uptime := data.runtime.fdiv 1000
      ({ st with systemConfig := effResult.2 },
       some { level := data.level
              temperature := data.temperature
              current := data.current
              vibrationRms := data.vibration.rms
              pump := data.pump
              mode := if st.systemConfig.pumpAutoMode then "Automático" else "Manual"
              efficiency := effResult.1
              uptimeMin := uptime.fdiv 60
              uptimeSec := uptime % 60
              heapKB := roundKB data.heap
              rssi := data.rssi })

/-- Fold a list of readings through the efficiency computation alone,
tracking only the `systemConfig` evolution. -/
def foldEfficiency (config : SystemConfig) (readings : List MQTTSensorData) :
    SystemConfig :=
  readings.foldl (fun c d => (calculateEfficiency c d).2) config

/-- A reading is idle when the pump is off or current draw is at most
0.1 A — the early-return condition of `calculateEfficiency`. -/
def isIdleReading (data : MQTTSensorData) : Bool :=
  !data.pump || decide (data.current ≤ 1/10)

/-! ### Association-list lemmas for the cooldown table -/

theorem lookupAlertTime_set_self (table : List (String × ℤ)) (key : String)
    (time : ℤ) :
    lookupAlertTime (setAlertTime table key time) key = time := by
  rw [setAlertTime, lookupAlertTime, List.find?_cons_of_pos _ (by simp)]

theorem find?_filter_ne (table : List (String × ℤ)) (key key' : String)
    (h : key' ≠ key) :
    (table.filter (fun e => !(e.1 == key))).find? (fun e => e.1 == key') =
      table.find? (fun e => e.1 == key') := by
  induction table with
  | nil => simp
  | cons e rest ih =>
      have hkk' : (key == key') = false :=
        beq_eq_false_iff_ne.mpr (fun he => h he.symm)
      by_cases hk : e.1 = key
      · simp [List.filter_cons, hk, List.find?_cons, hkk', ih]
      · by_cases hk2 : e.1 = key'
        · simp [List.filter_cons, hk, List.find?_cons, hk2, h]
        · simp [List.filter_cons, hk, List.find?_cons, hk2, ih]

theorem lookupAlertTime_set_other (table : List (String × ℤ))
    (key key' : String) (time : ℤ) (h : key' ≠ key) :
    lookupAlertTime (setAlertTime table key time) key' =
      lookupAlertTime table key' := by
  rw [setAlertTime, lookupAlertTime,
    List.find?_cons_of_neg _ (by simp; exact fun he => h he.symm),
    find?_filter_ne table key key' h, lookupAlertTime]

/-! ### Behaviour of the cooldown/dispatch loop -/

theorem processAlerts_not_due
    (now : ℤ) (deliver : String → Bool) (key : String) :
    ∀ (alerts : List AlertSpec) (table : List (String × ℤ)),
    now - lookupAlertTime table key ≤ ALERT_COOLDOWN →
    key ∉ (processAlerts now deliver alerts table).2.map Prod.fst ∧
    lookupAlertTime (processAlerts now deliver alerts table).1 key =
      lookupAlertTime table key := by
  intro alerts
  induction alerts with
  | nil => intro table h; simp [processAlerts]
  | cons a rest ih =>
      intro table h
      by_cases hc : now - lookupAlertTime table a.key > ALERT_COOLDOWN
      · have hak : key ≠ a.key := by
          intro he; rw [he] at h; omega
        have hset : lookupAlertTime (setAlertTime table a.key now) key =
            lookupAlertTime table key :=
          lookupAlertTime_set_other table a.key key now hak
        have hrest := ih (setAlertTime table a.key now) (by rw [hset]; exact h)
        simp only [processAlerts, if_pos hc, List.map_cons, List.mem_cons]
        exact ⟨fun hmem => hmem.elim hak hrest.1, by rw [hrest.2, hset]⟩
      · have hrest := ih table h
        simpa only [processAlerts, if_neg hc] using hrest

theorem processAlerts_fires
    (now : ℤ) (deliver : String → Bool) (key : String) :
    ∀ (alerts : List AlertSpec) (table : List (String × ℤ)),
    key ∈ alerts.map AlertSpec.key →
    now - lookupAlertTime table key > ALERT_COOLDOWN →
    key ∈ (processAlerts now deliver alerts table).2.map Prod.fst := by
  intro alerts
  induction alerts with
  | nil => intro table h; simp at h
  | cons a rest ih =>
      intro table hmem hdue
      rcases List.mem_cons.mp hmem with heq | hrest
      · have hc : now - lookupAlertTime table a.key > ALERT_COOLDOWN := by
          rw [← heq]; exact hdue
        simp [processAlerts, if_pos hc, heq]
      · by_cases hc : now - lookupAlertTime table a.key > ALERT_COOLDOWN
        · by_cases hak : key = a.key
          · simp [processAlerts, if_pos hc, hak]
          · have hset : lookupAlertTime (setAlertTime table a.key now) key =
                lookupAlertTime table key :=
              lookupAlertTime_set_other table a.key key now hak
            have := ih (setAlertTime table a.key now) hrest (by rw [hset]; exact hdue)
            simp only [processAlerts, if_pos hc, List.map_cons, List.mem_cons]
            exact Or.inr this
        · simp only [processAlerts, if_neg hc]
          exact ih table hrest hdue

theorem processAlerts_lookup_now
    (now : ℤ) (deliver : String → Bool) (key : String) :
    ∀ (alerts : List AlertSpec) (table : List (String × ℤ)),
    lookupAlertTime table key = now →
    lookupAlertTime (processAlerts now deliver alerts table).1 key = now := by
  intro alerts
  induction alerts with
  | nil => intro table h; simpa [processAlerts] using h
  | cons a rest ih =>
      intro table h
      by_cases hc : now - lookupAlertTime table a.key > ALERT_COOLDOWN
      · simp only [processAlerts, if_pos hc]
        by_cases hak : key = a.key
        · exact ih _ (by rw [hak, lookupAlertTime_set_self])
        · exact ih _ (by rw [lookupAlertTime_set_other table a.key key now hak]; exact h)
      · simp only [processAlerts, if_neg hc]
        exact ih table h

theorem processAlerts_fired_lookup
    (now : ℤ) (deliver : String → Bool) (key : String) :
    ∀ (alerts : List AlertSpec) (table : List (String × ℤ)),
    key ∈ (processAlerts now deliver alerts table).2.map Prod.fst →
    lookupAlertTime (processAlerts now deliver alerts table).1 key = now := by
  intro alerts
  induction alerts with
  | nil => intro table h; simp [processAlerts] at h
  | cons a rest ih =>
      intro table hmem
      by_cases hc : now - lookupAlertTime table a.key > ALERT_COOLDOWN
      · simp only [processAlerts, if_pos hc, List.map_cons, List.mem_cons] at hmem ⊢
        rcases hmem with heq | hrest
        · exact processAlerts_lookup_now now deliver key rest _
            (by rw [heq, lookupAlertTime_set_self])
        · exact ih _ hrest
      · simp only [processAlerts, if_neg hc] at hmem ⊢
        exact ih table hmem

theorem processAlerts_delivery
    (now : ℤ) (deliver : String → Bool) :
    ∀ (alerts : List AlertSpec) (table : List (String × ℤ)) (k : String) (b : Bool),
    (k, b) ∈ (processAlerts now deliver alerts table).2 → b = deliver k := by
  intro alerts
  induction alerts with
  | nil => intro table k b h; simp [processAlerts] at h
  | cons a rest ih =>
      intro table k b hmem
      by_cases hc : now - lookupAlertTime table a.key > ALERT_COOLDOWN
      · simp only [processAlerts, if_pos hc, List.mem_cons] at hmem
        rcases hmem with heq | hrest
        · obtain ⟨hk, hb⟩ := Prod.mk.injEq .. ▸ heq
          simp_all
        · exact ih _ k b hrest
      · simp only [processAlerts, if_neg hc] at hmem
        exact ih table k b hmem

theorem processAlerts_sublist
    (now : ℤ) (deliver : String → Bool) :
    ∀ (alerts : List AlertSpec) (table : List (String × ℤ)),
    List.Sublist ((processAlerts now deliver alerts table).2.map Prod.fst)
      (alerts.map AlertSpec.key) := by
  intro alerts
  induction alerts with
  | nil => intro table; simp [processAlerts]
  | cons a rest ih =>
      intro table
      by_cases hc : now - lookupAlertTime table a.key > ALERT_COOLDOWN
      · simp only [processAlerts, if_pos hc, List.map_cons]
        exact List.Sublist.cons₂ _ (ih _)
      · simp only [processAlerts, if_neg hc, List.map_cons]
        exact List.Sublist.cons _ (ih _)

/-! ### Bridging the full reading handler to the dispatch loop -/

theorem onSensorReading_lastAlertTimes (now : ℤ) (deliver : String → Bool)
    (writeOk : Bool) (st : IntegrationState) (data : MQTTSensorData) :
    (onSensorReading now deliver writeOk st data).state.lastAlertTimes =
      (processAlerts now deliver (computeAlerts st data) st.lastAlertTimes).1 := by
  simp [onSensorReading, checkAndSendAlerts]

theorem onSensorReading_dispatched (now : ℤ) (deliver : String → Bool)
    (writeOk : Bool) (st : IntegrationState) (data : MQTTSensorData) :
    (onSensorReading now deliver writeOk st data).dispatched =
      (processAlerts now deliver (computeAlerts st data) st.lastAlertTimes).2 := by
  simp [onSensorReading, checkAndSendAlerts]

theorem runReadings_suppressed (deliver : String → Bool) (writeOk : Bool)
    (key : String) (t1 : ℤ) :
    ∀ (events : List (ℤ × MQTTSensorData)) (st : IntegrationState),
    lookupAlertTime st.lastAlertTimes key = t1 →
    (∀ e ∈ events, e.1 - t1 ≤ ALERT_COOLDOWN) →
    key ∉ (runReadings deliver writeOk st events).2.map Prod.snd ∧
    lookupAlertTime (runReadings deliver writeOk st events).1.lastAlertTimes key
      = t1 := by
  intro events
  induction events with
  | nil => intro st h _; simpa [runReadings] using h
  | cons e rest ih =>
      intro st h hwin
      obtain ⟨t, d⟩ := e
      have hle : t - lookupAlertTime st.lastAlertTimes key ≤ ALERT_COOLDOWN := by
        rw [h]; exact hwin (t, d) (List.mem_cons_self _ _)
      have hstep := processAlerts_not_due t deliver key (computeAlerts st d)
        st.lastAlertTimes hle
      have hnext : lookupAlertTime
          (onSensorReading t deliver writeOk st d).state.lastAlertTimes key = t1 := by
        rw [onSensorReading_lastAlertTimes, hstep.2, h]
      have hrest := ih (onSensorReading t deliver writeOk st d).state hnext
        (fun e he => hwin e (List.mem_cons_of_mem _ he))
      constructor
      · simp only [runReadings, List.map_append, List.mem_append, List.map_map]
        intro hmem
        rcases hmem with hl | hr
        · apply hstep.1
          rw [onSensorReading_dispatched] at hl
          simpa using hl
        · exact hrest.1 hr
      · simpa only [runReadings] using hrest.2

/-! ### The candidate alert keys are pairwise distinct -/

theorem computeAlerts_keys_nodup (st : IntegrationState)
    (data : MQTTSensorData) :
    ((computeAlerts st data).map AlertSpec.key).Nodup := by
  unfold computeAlerts
  cases hprev : st.previousWaterLevel with
  | none => dsimp only; split_ifs <;> simp
  | some prev => dsimp only; split_ifs <;> simp

theorem checkAndSendAlerts_count_le_one (now : ℤ) (deliver : String → Bool)
    (st : IntegrationState) (data : MQTTSensorData) (key : String) :
    ((checkAndSendAlerts now deliver st data).2.map Prod.fst).count key ≤ 1 := by
  have hsub := processAlerts_sublist now deliver (computeAlerts st data)
    st.lastAlertTimes
  have hnd := computeAlerts_keys_nodup st data
  calc ((checkAndSendAlerts now deliver st data).2.map Prod.fst).count key
      ≤ ((computeAlerts st data).map AlertSpec.key).count key := by
        simpa [checkAndSendAlerts] using hsub.count_le key
    _ ≤ 1 := List.nodup_iff_count_le_one.mp hnd key

/-! ### Efficiency-history lemmas -/

theorem pushEfficiency_no_evict (h : List ℚ) (v : ℚ)
    (hlen : (h ++ [v]).length ≤ 20) : pushEfficiency h v = h ++ [v] := by
  have hng : ¬ (h ++ [v]).length > 20 := by omega
  simp only [pushEfficiency, if_neg hng]

theorem pushEfficiency_length_le (h : List ℚ) (v : ℚ) (hlen : h.length ≤ 20) :
    (pushEfficiency h v).length ≤ 20 := by
  simp only [pushEfficiency]
  split
  · simp only [List.length_drop, List.length_append, List.length_singleton]
    omega
  · next hng =>
      simp only [List.length_append, List.length_cons, List.length_nil] at hng ⊢
      omega

theorem foldl_pushEfficiency_no_evict :
    ∀ (vs h : List ℚ), (h ++ vs).length ≤ 20 →
    List.foldl pushEfficiency h vs = h ++ vs := by
  intro vs
  induction vs with
  | nil => intro h _; simp
  | cons v rest ih =>
      intro h hlen
      have hlen1 : (h ++ [v]).length ≤ 20 := by
        simp only [List.length_append, List.length_cons, List.length_nil] at hlen ⊢
        omega
      rw [List.foldl_cons, pushEfficiency_no_evict h v hlen1]
      have hlen2 : ((h ++ [v]) ++ rest).length ≤ 20 := by
        simp only [List.length_append, List.length_cons, List.length_nil] at hlen ⊢
        omega
      rw [ih (h ++ [v]) hlen2, List.append_assoc, List.singleton_append]

theorem foldl_pushEfficiency_21 (vs : List ℚ) (hlen : vs.length = 21) :
    List.foldl pushEfficiency [] vs = vs.drop 1 := by
  have hne : vs ≠ [] := by intro h; rw [h] at hlen; simp at hlen
  obtain ⟨ws, z, hsplit⟩ : ∃ ws z, vs = ws ++ [z] :=
    ⟨vs.dropLast, vs.getLast hne, (List.dropLast_append_getLast hne).symm⟩
  subst hsplit
  have hws : ws.length = 20 := by
    simp only [List.length_append, List.length_cons, List.length_nil] at hlen
    omega
  rw [List.foldl_append,
    foldl_pushEfficiency_no_evict ws [] (by simp [hws]),
    List.nil_append, List.foldl_cons, List.foldl_nil]
  have hgt : (ws ++ [z]).length > 20 := by simp [hws]
  simp only [pushEfficiency, if_pos hgt]

theorem historyAverage_eq_sum_div (h : List ℚ) (hne : h ≠ []) :
    historyAverage h = h.sum / h.length := by
  have hpos : 1 ≤ h.length := List.length_pos.mpr hne
  unfold historyAverage
  rw [max_eq_right hpos, List.sum_eq_foldl]

/-! ### Small auxiliary lemmas about the handler -/

theorem calculateEfficiency_idle (config : SystemConfig)
    (data : MQTTSensorData) (h : data.pump = false ∨ data.current ≤ 1/10) :
    calculateEfficiency config data = (100, config) := by
  unfold calculateEfficiency
  rw [if_pos h]

theorem isIdleReading_iff (data : MQTTSensorData) :
    isIdleReading data = true ↔ (data.pump = false ∨ data.current ≤ 1/10) := by
  simp [isIdleReading]

theorem onSensorReading_pumpCommands (now : ℤ) (deliver : String → Bool)
    (writeOk : Bool) (st : IntegrationState) (data : MQTTSensorData) :
    (onSensorReading now deliver writeOk st data).pumpCommands =
      (automaticPumpControl st.systemConfig data).toList := by
  simp [onSensorReading]

theorem onSensorReading_attachedEfficiency (now : ℤ) (deliver : String → Bool)
    (writeOk : Bool) (st : IntegrationState) (data : MQTTSensorData) :
    (onSensorReading now deliver writeOk st data).attachedEfficiency =
      (calculateEfficiency st.systemConfig data).1 := by
  simp [onSensorReading, checkAndSendAlerts]

/-! ### Concrete fixtures used by counterexamples and witnesses -/

/-- A fresh integration state: default config, no previous level recorded,
empty cooldown table. -/
def initialState : IntegrationState :=
  { systemConfig := defaultSystemConfig
    previousWaterLevel := none
    lastAlertTimes := [] }

/-- A vibration-free sample. -/
def calmVibration : Vibration := { x := 0, y := 0, z := 0, rms := 0 }

/-- Critically low water (5 %), pump off, idle current: satisfies the raw
conditions of both water-level alert rules. -/
def lowWaterReading : MQTTSensorData :=
  { device := "esp32", timestamp := 0, level := 5, temperature := 25
    current := 0, flowRate := 0, pump := false, efficiency := 0
    vibration := calmVibration, runtime := 0, heap := 0, rssi := 0 }

/-- Pump on at 1 A draw, mid-range level: a non-idle reading. -/
def pumpOnReading : MQTTSensorData :=
  { device := "esp32", timestamp := 0, level := 50, temperature := 25
    current := 1, flowRate := 0, pump := true, efficiency := 0
    vibration := calmVibration, runtime := 0, heap := 0, rssi := 0 }

/-- Level 15 % (below the default low threshold 20), pump off: triggers the
automatic `on` command. -/
def autoOnReading : MQTTSensorData :=
  { device := "esp32", timestamp := 0, level := 15, temperature := 25
    current := 0, flowRate := 0, pump := false, efficiency := 0
    vibration := calmVibration, runtime := 0, heap := 0, rssi := 0 }

/-- An explicit list of 21 efficiency values. -/
def ratList21 : List ℚ :=
  [1, 2, 3, 4, 5, 6, 7, 8, 9, 10, 11,
   12, 13, 14, 15, 16, 17, 18, 19, 20, 21]

/-! ### Claim C5 -/

/-- Claim C5: for every reading with pump=false or current ≤ 0.1, the
efficiency value computed and attached to that reading equals exactly
100.0. -/
theorem claim_C5_idle_efficiency_is_100 (config : SystemConfig)
    (st : IntegrationState) (data : MQTTSensorData) (now : ℤ)
    (deliver : String → Bool) (writeOk : Bool)
    (h : data.pump = false ∨ data.current ≤ 1/10) :
    (calculateEfficiency config data).1 = 100 ∧
    (onSensorReading now deliver writeOk st data).attachedEfficiency = 100 := by
  constructor
  · rw [calculateEfficiency_idle config data h]
  · rw [onSensorReading_attachedEfficiency,
      calculateEfficiency_idle st.systemConfig data h]

/-- Witness for C5 at a concrete idle reading. -/
theorem claim_C5_witness :
    (calculateEfficiency defaultSystemConfig lowWaterReading).1 = 100 ∧
    (onSensorReading 0 (fun _ => true) true initialState
      lowWaterReading).attachedEfficiency = 100 :=
  claim_C5_idle_efficiency_is_100 defaultSystemConfig initialState
    lowWaterReading 0 (fun _ => true) true (Or.inl rfl)

/-! ### Claim C7 -/

/-- Claim C7: with autoMode on, level ≤ lowThreshold and pump reported off
issues exactly one `on` command; otherwise level ≥ highThreshold and pump
reported on issues exactly one `off` command; otherwise no command. With
autoMode off no automatic command is ever issued. -/
theorem claim_C7_automatic_control (st : IntegrationState)
    (data : MQTTSensorData) (now : ℤ) (deliver : String → Bool)
    (writeOk : Bool) :
    (st.systemConfig.pumpAutoMode = false →
      (onSensorReading now deliver writeOk st data).pumpCommands = []) ∧
    (st.systemConfig.pumpAutoMode = true →
      (data.level ≤ st.systemConfig.lowWaterThreshold ∧ data.pump = false →
        (onSensorReading now deliver writeOk st data).pumpCommands =
          [PumpAction.turnOn]) ∧
      (¬(data.level ≤ st.systemConfig.lowWaterThreshold ∧ data.pump = false) →
        data.level ≥ st.systemConfig.highWaterThreshold ∧ data.pump = true →
        (onSensorReading now deliver writeOk st data).pumpCommands =
          [PumpAction.turnOff]) ∧
      (¬(data.level ≤ st.systemConfig.lowWaterThreshold ∧ data.pump = false) →
        ¬(data.level ≥ st.systemConfig.highWaterThreshold ∧ data.pump = true) →
        (onSensorReading now deliver writeOk st data).pumpCommands = [])) := by
  rw [onSensorReading_pumpCommands]
  constructor
  · intro hmanual
    unfold automaticPumpControl
    rw [if_pos hmanual]
    rfl
  · intro hauto
    have hnotfalse : ¬ st.systemConfig.pumpAutoMode = false := by
      rw [hauto]; simp
    refine ⟨?_, ?_, ?_⟩
    · intro hlow
      unfold automaticPumpControl
      rw [if_neg hnotfalse, if_pos hlow]
      rfl
    · intro hnotlow hhigh
      unfold automaticPumpControl
      rw [if_neg hnotfalse, if_neg hnotlow, if_pos hhigh]
      rfl
    · intro hnotlow hnothigh
      unfold automaticPumpControl
      rw [if_neg hnotfalse, if_neg hnotlow, if_neg hnothigh]
      rfl

/-- Witness for C7: the spec's own example — autoMode on, level 15 below the
low threshold 20, pump off — yields exactly one `on` command. -/
theorem claim_C7_witness :
    (onSensorReading 0 (fun _ => true) true initialState
      autoOnReading).pumpCommands = [PumpAction.turnOn] :=
  ((claim_C7_automatic_control initialState autoOnReading 0
      (fun _ => true) true).2 rfl).1 (by constructor <;> norm_num [autoOnReading, initialState, defaultSystemConfig])

/-! ### Claim C9 -/

/-- Claim C9: a failed durable write is isolated — it is not propagated, and
the `sensorData` broadcast and the previous-water-level update for the same
reading are unaffected; every handler output other than the write record is
identical to the successful-write run. -/
theorem claim_C9_write_failure_isolated (st : IntegrationState)
    (data : MQTTSensorData) (now : ℤ) (deliver : String → Bool) :
    (onSensorReading now deliver false st data).state =
      (onSensorReading now deliver true st data).state ∧
    (onSensorReading now deliver false st data).broadcasts =
      (onSensorReading now deliver true st data).broadcasts ∧
    (onSensorReading now deliver false st data).dispatched =
      (onSensorReading now deliver true st data).dispatched ∧
    (onSensorReading now deliver false st data).attachedEfficiency =
      (onSensorReading now deliver true st data).attachedEfficiency ∧
    (onSensorReading now deliver false st data).pumpCommands =
      (onSensorReading now deliver true st data).pumpCommands ∧
    "sensorData" ∈ (onSensorReading now deliver false st data).broadcasts ∧
    (onSensorReading now deliver false st data).state.previousWaterLevel =
      some data.level ∧
    (onSensorReading now deliver false st data).wroteToInflux = false := by
  refine ⟨rfl, rfl, rfl, rfl, rfl, ?_, rfl, rfl⟩
  simp [onSensorReading]

/-! ### Claim C10 -/

/-- Claim C10: an idle reading (pump off or current ≤ 0.1) leaves
EfficiencyHistory completely unchanged, so a reading stream produces the
same history as the stream with all idle readings removed. -/
theorem claim_C10_idle_readings_leave_history (config : SystemConfig)
    (data : MQTTSensorData) (readings : List MQTTSensorData) :
    (data.pump = false ∨ data.current ≤ 1/10 →
      (calculateEfficiency config data).2 = config) ∧
    foldEfficiency config readings =
      foldEfficiency config (readings.filter (fun d => !(isIdleReading d))) := by
  constructor
  · intro h
    rw [calculateEfficiency_idle config data h]
  · induction readings generalizing config with
    | nil => rfl
    | cons d rest ih =>
        by_cases hd : isIdleReading d = true
        · have hidle := (isIdleReading_iff d).mp hd
          simp only [foldEfficiency, List.foldl_cons, List.filter_cons, hd,
            Bool.not_true, calculateEfficiency_idle config d hidle]
          exact ih config
        · have hd' : isIdleReading d = false := Bool.eq_false_iff.mpr hd
          simp only [foldEfficiency, List.foldl_cons, List.filter_cons, hd',
            Bool.not_false, if_pos]
          exact ih (calculateEfficiency config d).2

/-- Witness for C10 at a concrete idle reading and a concrete stream. -/
theorem claim_C10_witness :
    (calculateEfficiency defaultSystemConfig lowWaterReading).2 =
      defaultSystemConfig ∧
    foldEfficiency defaultSystemConfig [lowWaterReading, pumpOnReading] =
      foldEfficiency defaultSystemConfig
        ([lowWaterReading, pumpOnReading].filter (fun d => !(isIdleReading d))) := by
  have h := claim_C10_idle_readings_leave_history defaultSystemConfig
    lowWaterReading [lowWaterReading, pumpOnReading]
  exact ⟨h.1 (Or.inl rfl), h.2⟩

/-! ### Claim C1 -/

/-- Claim C1 counterexample: a reading with level 5 < 10, pump off, autoMode
on and level < lowThreshold produces only the critical low-water alert; the
auto-mode pump-failure warning does not fire on the same reading (the two
rules sit in a single if/else-if chain), refuting the claim that both are
produced. -/
theorem claim_C1_counterexample :
    lowWaterReading.level < 10 ∧
    lowWaterReading.pump = false ∧
    initialState.systemConfig.pumpAutoMode = true ∧
    lowWaterReading.level < initialState.systemConfig.lowWaterThreshold ∧
    computeAlerts initialState lowWaterReading =
      [⟨AlertType.critical, "low_water_critical"⟩] ∧
    "low_water_pump_fail" ∉
      (checkAndSendAlerts 1000000000 (fun _ => true) initialState
        lowWaterReading).2.map Prod.fst ∧
    "low_water_critical" ∈
      (checkAndSendAlerts 1000000000 (fun _ => true) initialState
        lowWaterReading).2.map Prod.fst := by
  norm_num [computeAlerts, checkAndSendAlerts, processAlerts, lookupAlertTime,
    setAlertTime, initialState, defaultSystemConfig, lowWaterReading,
    calmVibration, ALERT_COOLDOWN]
  decide

/-- Claim C1 (amended): the two water-level rules are mutually exclusive.
For a reading with level < 10 the critical alert is produced and the
pump-failure warning is not; the pump-failure warning is produced exactly
when 10 ≤ level < lowThreshold, the pump is off and autoMode is on. -/
theorem claim_C1_amended (st : IntegrationState) (data : MQTTSensorData) :
    (data.level < 10 →
      (⟨AlertType.critical, "low_water_critical"⟩ : AlertSpec) ∈
        computeAlerts st data ∧
      "low_water_pump_fail" ∉ (computeAlerts st data).map AlertSpec.key) ∧
    ("low_water_pump_fail" ∈ (computeAlerts st data).map AlertSpec.key ↔
      ¬(data.level < 10) ∧ data.level < st.systemConfig.lowWaterThreshold ∧
        data.pump = false ∧ st.systemConfig.pumpAutoMode = true) := by
  unfold computeAlerts
  cases hprev : st.previousWaterLevel <;> dsimp only <;> split_ifs <;>
    constructor <;> simp_all

/-- Witness for C1 (amended) at the concrete low-water reading. -/
theorem claim_C1_witness :
    (⟨AlertType.critical, "low_water_critical"⟩ : AlertSpec) ∈
      computeAlerts initialState lowWaterReading ∧
    "low_water_pump_fail" ∉
      (computeAlerts initialState lowWaterReading).map AlertSpec.key := by
  exact (claim_C1_amended initialState lowWaterReading).1
    (by norm_num [lowWaterReading])

/-! ### Claim C2 -/

theorem calculateEfficiency_config_frame (config : SystemConfig)
    (data : MQTTSensorData) :
    (calculateEfficiency config data).2.pumpAutoMode = config.pumpAutoMode ∧
    (calculateEfficiency config data).2.lowWaterThreshold =
      config.lowWaterThreshold ∧
    (calculateEfficiency config data).2.highWaterThreshold =
      config.highWaterThreshold := by
  unfold calculateEfficiency
  split
  · exact ⟨rfl, rfl, rfl⟩
  · exact ⟨rfl, rfl, rfl⟩

theorem calculateEfficiency_not_idle (config : SystemConfig)
    (data : MQTTSensorData)
    (h : ¬(data.pump = false ∨ data.current ≤ 1/10)) :
    (calculateEfficiency config data).2.efficiencyHistory =
      pushEfficiency config.efficiencyHistory (instantEfficiency data) := by
  unfold calculateEfficiency
  rw [if_neg h]

/-- Claim C2 counterexample: generating the status report for a non-idle
latest reading appends to EfficiencyHistory — the projection is not
read-only. -/
theorem claim_C2_counterexample :
    (getCompleteSystemStatus initialState (some pumpOnReading)).1 ≠
      initialState ∧
    (getCompleteSystemStatus initialState
        (some pumpOnReading)).1.systemConfig.efficiencyHistory = [900/11] ∧
    initialState.systemConfig.efficiencyHistory = [] := by
  have hhist : (getCompleteSystemStatus initialState
      (some pumpOnReading)).1.systemConfig.efficiencyHistory = [900/11] := by
    norm_num [getCompleteSystemStatus, calculateEfficiency, instantEfficiency,
      pushEfficiency, historyAverage, initialState, defaultSystemConfig,
      pumpOnReading, calmVibration]
  refine ⟨fun heq => ?_, hhist, rfl⟩
  rw [heq] at hhist
  norm_num [initialState, defaultSystemConfig] at hhist

/-- Claim C2 (amended): status generation leaves the cooldown table, the
previous water level, the autoMode flag and both thresholds unchanged; it
is fully state-preserving when there is no latest reading or the latest
reading is idle, but for a non-idle latest reading it pushes the
instantaneous efficiency onto EfficiencyHistory. -/
theorem claim_C2_amended (st : IntegrationState)
    (latest : Option MQTTSensorData) :
    (getCompleteSystemStatus st latest).1.lastAlertTimes =
      st.lastAlertTimes ∧
    (getCompleteSystemStatus st latest).1.previousWaterLevel =
      st.previousWaterLevel ∧
    (getCompleteSystemStatus st latest).1.systemConfig.pumpAutoMode =
      st.systemConfig.pumpAutoMode ∧
    (getCompleteSystemStatus st latest).1.systemConfig.lowWaterThreshold =
      st.systemConfig.lowWaterThreshold ∧
    (getCompleteSystemStatus st latest).1.systemConfig.highWaterThreshold =
      st.systemConfig.highWaterThreshold ∧
    (latest = none → (getCompleteSystemStatus st latest).1 = st) ∧
    (∀ data, latest = some data →
      (data.pump = false ∨ data.current ≤ 1/10 →
        (getCompleteSystemStatus st latest).1 = st) ∧
      (¬(data.pump = false ∨ data.current ≤ 1/10) →
        (getCompleteSystemStatus st latest).1.systemConfig.efficiencyHistory =
          pushEfficiency st.systemConfig.efficiencyHistory
            (instantEfficiency data))) := by
  cases latest with
  | none =>
      refine ⟨rfl, rfl, rfl, rfl, rfl, fun _ => rfl, ?_⟩
      intro data hsome
      exact absurd hsome (by simp)
  | some d =>
      have hframe := calculateEfficiency_config_frame st.systemConfig d
      refine ⟨rfl, rfl, hframe.1, hframe.2.1, hframe.2.2, by simp, ?_⟩
      intro data hsome
      have hd : d = data := by injection hsome
      rw [← hd]
      constructor
      · intro hidle
        show ({ st with systemConfig :=
          (calculateEfficiency st.systemConfig d).2 } : IntegrationState) = st
        rw [calculateEfficiency_idle st.systemConfig d hidle]
      · intro hrun
        show (calculateEfficiency st.systemConfig d).2.efficiencyHistory =
          pushEfficiency st.systemConfig.efficiencyHistory
            (instantEfficiency d)
        exact calculateEfficiency_not_idle st.systemConfig d hrun

/-- Witness for C2 (amended): an idle latest reading preserves the full
state; a non-idle latest reading pushes onto the history. -/
theorem claim_C2_witness :
    (getCompleteSystemStatus initialState (some lowWaterReading)).1 =
      initialState ∧
    (getCompleteSystemStatus initialState
        (some pumpOnReading)).1.systemConfig.efficiencyHistory =
      pushEfficiency initialState.systemConfig.efficiencyHistory
        (instantEfficiency pumpOnReading) := by
  have h1 := claim_C2_amended initialState (some lowWaterReading)
  have h2 := claim_C2_amended initialState (some pumpOnReading)
  exact ⟨(h1.2.2.2.2.2.2 lowWaterReading rfl).1 (Or.inl rfl),
    (h2.2.2.2.2.2.2 pumpOnReading rfl).2 (by norm_num [pumpOnReading])⟩

/-! ### Claim C3 -/

/-- Claim C3 counterexample: with autoMode on (the default), a dashboard/API
`on` command is not rejected — the route calls `controlPump`, which publishes
the command to the device, and the originator receives success=true. -/
theorem claim_C3_counterexample :
    initialState.systemConfig.pumpAutoMode = true ∧
    (apiPumpControl true initialState "on").success = true ∧
    (apiPumpControl true initialState "on").status = 200 ∧
    (apiPumpControl true initialState "on").publishes =
      [("acquasys/pump/control", "on")] := by
  norm_num [apiPumpControl, controlPump, initialState, defaultSystemConfig]

/-- Claim C3 (amended): only the chat-bot channel gates manual toggles on
autoMode — while autoMode is true a Telegram toggle is rejected with an
explanatory reply, publishes nothing and changes no state; the dashboard/API
route applies no autoMode gate: any valid on/off command invokes
`controlPump` and reports success. -/
theorem claim_C3_amended (st : IntegrationState) (connected : Bool)
    (action : String) :
    (st.systemConfig.pumpAutoMode = true →
      handleTelegramPumpControl connected st action =
        (st, [], TelegramReply.autoModeRejection)) ∧
    (action = "on" ∨ action = "off" →
      (apiPumpControl connected st action).success = true ∧
      (apiPumpControl connected st action).status = 200 ∧
      (apiPumpControl connected st action).publishes =
        (controlPump connected action).publishes) := by
  constructor
  · intro hauto
    unfold handleTelegramPumpControl
    rw [if_pos hauto]
  · intro hvalid
    unfold apiPumpControl
    rw [if_neg (not_not_intro hvalid)]
    simp [controlPump]

/-- Witness for C3 (amended) at concrete commands. -/
theorem claim_C3_witness :
    handleTelegramPumpControl true initialState "on" =
      (initialState, [], TelegramReply.autoModeRejection) ∧
    (apiPumpControl true initialState "off").success = true ∧
    (apiPumpControl true initialState "off").status = 200 ∧
    (apiPumpControl true initialState "off").publishes =
      (controlPump true "off").publishes := by
  have h1 := claim_C3_amended initialState true "on"
  have h2 := (claim_C3_amended initialState true "off").2 (Or.inr rfl)
  exact ⟨h1.1 rfl, h2.1, h2.2.1, h2.2.2⟩

/-! ### Claim C6 -/

/-- Claim C6: EfficiencyHistory is bounded at capacity 20 with FIFO
eviction — a push never grows it past 20; pushing 21 values into an empty
history leaves exactly values 2–21 (the 1st pushed value is evicted), and
the reported running average is their arithmetic mean. -/
theorem claim_C6_history_bounded_fifo :
    (∀ (h : List ℚ) (v : ℚ), h.length ≤ 20 →
      (pushEfficiency h v).length ≤ 20) ∧
    (∀ vs : List ℚ, vs.length = 21 →
      List.foldl pushEfficiency [] vs = vs.drop 1 ∧
      historyAverage (List.foldl pushEfficiency [] vs) =
        (vs.drop 1).sum / 20) := by
  refine ⟨pushEfficiency_length_le,
    fun vs hlen => ⟨foldl_pushEfficiency_21 vs hlen, ?_⟩⟩
  rw [foldl_pushEfficiency_21 vs hlen]
  have hlen20 : (vs.drop 1).length = 20 := by
    rw [List.length_drop, hlen]
  have hne : vs.drop 1 ≠ [] := by
    intro h0
    rw [h0] at hlen20
    simp at hlen20
  rw [historyAverage_eq_sum_div _ hne, hlen20]
  norm_num

/-- Witness for C6 on an explicit list of 21 values. -/
theorem claim_C6_witness :
    (pushEfficiency [] 1).length ≤ 20 ∧
    List.foldl pushEfficiency [] ratList21 = ratList21.drop 1 ∧
    historyAverage (List.foldl pushEfficiency [] ratList21) =
      (ratList21.drop 1).sum / 20 := by
  have h := claim_C6_history_bounded_fifo
  have h2 := h.2 ratList21 (by simp [ratList21])
  exact ⟨h.1 [] 1 (by simp), h2.1, h2.2⟩

/-! ### Claim C4 -/

/-- Claim C4: alert-cooldown de-duplication. Once a reading fires an alert
kind at time t1, a second qualifying reading processed at t2 dispatches that
kind again exactly when t2 − t1 exceeds the 10-minute cooldown: within the
window exactly one alert of the kind is dispatched across the two readings,
beyond it exactly two; and no stream of qualifying readings processed inside
the window re-emits the kind at all. -/
theorem claim_C4_alert_cooldown (st : IntegrationState)
    (d1 d2 : MQTTSensorData) (t1 t2 : ℤ) (del1 del2 : String → Bool)
    (w1 w2 : Bool) (key : String)
    (hfired : key ∈
      (onSensorReading t1 del1 w1 st d1).dispatched.map Prod.fst) :
    (t2 - t1 ≤ ALERT_COOLDOWN →
      key ∉ (onSensorReading t2 del2 w2
        (onSensorReading t1 del1 w1 st d1).state d2).dispatched.map Prod.fst ∧
      ((onSensorReading t1 del1 w1 st d1).dispatched.map Prod.fst ++
        (onSensorReading t2 del2 w2
          (onSensorReading t1 del1 w1 st d1).state d2).dispatched.map
          Prod.fst).count key = 1) ∧
    (t2 - t1 > ALERT_COOLDOWN →
      key ∈ (computeAlerts (onSensorReading t1 del1 w1 st d1).state d2).map
        AlertSpec.key →
      key ∈ (onSensorReading t2 del2 w2
        (onSensorReading t1 del1 w1 st d1).state d2).dispatched.map Prod.fst ∧
      ((onSensorReading t1 del1 w1 st d1).dispatched.map Prod.fst ++
        (onSensorReading t2 del2 w2
          (onSensorReading t1 del1 w1 st d1).state d2).dispatched.map
          Prod.fst).count key = 2) ∧
    (∀ events : List (ℤ × MQTTSensorData),
      (∀ e ∈ events, e.1 - t1 ≤ ALERT_COOLDOWN) →
      key ∉ (runReadings del2 w2 (onSensorReading t1 del1 w1 st d1).state
        events).2.map Prod.snd) := by
  have hdisp1 := onSensorReading_dispatched t1 del1 w1 st d1
  have htbl1 := onSensorReading_lastAlertTimes t1 del1 w1 st d1
  have hdisp2 := onSensorReading_dispatched t2 del2 w2
    (onSensorReading t1 del1 w1 st d1).state d2
  have hlook : lookupAlertTime
      (onSensorReading t1 del1 w1 st d1).state.lastAlertTimes key = t1 := by
    rw [htbl1]
    exact processAlerts_fired_lookup t1 del1 key (computeAlerts st d1)
      st.lastAlertTimes (by rw [hdisp1] at hfired; exact hfired)
  have hcount1 : ((onSensorReading t1 del1 w1 st d1).dispatched.map
      Prod.fst).count key = 1 := by
    have hle : ((onSensorReading t1 del1 w1 st d1).dispatched.map
        Prod.fst).count key ≤ 1 := by
      rw [hdisp1]
      simpa [checkAndSendAlerts] using
        checkAndSendAlerts_count_le_one t1 del1 st d1 key
    have hge : 0 < ((onSensorReading t1 del1 w1 st d1).dispatched.map
        Prod.fst).count key := List.count_pos_iff.mpr hfired
    omega
  have hle2 : ((onSensorReading t2 del2 w2
      (onSensorReading t1 del1 w1 st d1).state d2).dispatched.map
      Prod.fst).count key ≤ 1 := by
    rw [hdisp2]
    simpa [checkAndSendAlerts] using checkAndSendAlerts_count_le_one t2 del2
      (onSensorReading t1 del1 w1 st d1).state d2 key
  refine ⟨?_, ?_, ?_⟩
  · intro hwin
    have hdue : t2 - lookupAlertTime
        (onSensorReading t1 del1 w1 st d1).state.lastAlertTimes key ≤
        ALERT_COOLDOWN := by rw [hlook]; exact hwin
    have hsup := processAlerts_not_due t2 del2 key
      (computeAlerts (onSensorReading t1 del1 w1 st d1).state d2)
      (onSensorReading t1 del1 w1 st d1).state.lastAlertTimes hdue
    have hnot : key ∉ (onSensorReading t2 del2 w2
        (onSensorReading t1 del1 w1 st d1).state d2).dispatched.map
        Prod.fst := by rw [hdisp2]; exact hsup.1
    refine ⟨hnot, ?_⟩
    rw [List.count_append, hcount1, List.count_eq_zero.mpr hnot]
  · intro hbeyond hqual
    have hdue : t2 - lookupAlertTime
        (onSensorReading t1 del1 w1 st d1).state.lastAlertTimes key >
        ALERT_COOLDOWN := by rw [hlook]; exact hbeyond
    have hin : key ∈ (onSensorReading t2 del2 w2
        (onSensorReading t1 del1 w1 st d1).state d2).dispatched.map
        Prod.fst := by
      rw [hdisp2]
      exact processAlerts_fires t2 del2 key
        (computeAlerts (onSensorReading t1 del1 w1 st d1).state d2)
        (onSensorReading t1 del1 w1 st d1).state.lastAlertTimes hqual hdue
    refine ⟨hin, ?_⟩
    have hge2 : 0 < ((onSensorReading t2 del2 w2
        (onSensorReading t1 del1 w1 st d1).state d2).dispatched.map
        Prod.fst).count key := List.count_pos_iff.mpr hin
    rw [List.count_append, hcount1]
    omega
  · intro events hwin
    exact (runReadings_suppressed del2 w2 key t1 events
      (onSensorReading t1 del1 w1 st d1).state hlook hwin).1

/-- Witness for C4: the critical-low-water alert fired at time 10⁹ is not
re-dispatched for an identical reading at the exact end of the cooldown
window, and is re-dispatched one millisecond after it. -/
theorem claim_C4_witness :
    ("low_water_critical" ∉ (onSensorReading (1000000000 + ALERT_COOLDOWN)
      (fun _ => true) true (onSensorReading 1000000000 (fun _ => true) true
        initialState lowWaterReading).state lowWaterReading).dispatched.map
      Prod.fst) ∧
    ("low_water_critical" ∈ (onSensorReading (1000000000 + ALERT_COOLDOWN + 1)
      (fun _ => true) true (onSensorReading 1000000000 (fun _ => true) true
        initialState lowWaterReading).state lowWaterReading).dispatched.map
      Prod.fst) := by
  have hfired : "low_water_critical" ∈ (onSensorReading 1000000000
      (fun _ => true) true initialState lowWaterReading).dispatched.map
      Prod.fst := by
    norm_num [onSensorReading, checkAndSendAlerts, processAlerts,
      computeAlerts, lookupAlertTime, setAlertTime, automaticPumpControl,
      calculateEfficiency, initialState, defaultSystemConfig, lowWaterReading,
      calmVibration, ALERT_COOLDOWN]
  have hqual : "low_water_critical" ∈
      (computeAlerts (onSensorReading 1000000000 (fun _ => true) true
        initialState lowWaterReading).state lowWaterReading).map
      AlertSpec.key := by
    norm_num [onSensorReading, checkAndSendAlerts, processAlerts,
      computeAlerts, lookupAlertTime, setAlertTime, automaticPumpControl,
      calculateEfficiency, initialState, defaultSystemConfig, lowWaterReading,
      calmVibration, ALERT_COOLDOWN]
  have hwithin := (claim_C4_alert_cooldown initialState lowWaterReading
    lowWaterReading 1000000000 (1000000000 + ALERT_COOLDOWN) (fun _ => true)
    (fun _ => true) true true "low_water_critical" hfired).1
    (by norm_num [ALERT_COOLDOWN])
  have hbeyond := ((claim_C4_alert_cooldown initialState lowWaterReading
    lowWaterReading 1000000000 (1000000000 + ALERT_COOLDOWN + 1)
    (fun _ => true) (fun _ => true) true true "low_water_critical"
    hfired).2.1 (by norm_num [ALERT_COOLDOWN]) hqual)
  exact ⟨hwithin.1, hbeyond.1⟩

/-! ### Claim C8 -/

/-- Claim C8: when alert delivery fails (the delivery callback resolves to
false — it never throws), the cooldown timestamp for that alert kind is
still recorded as fired at that time, so the kind is not dispatched again
within the following 10-minute window. -/
theorem claim_C8_failed_delivery_still_cools (st : IntegrationState)
    (data d2 : MQTTSensorData) (now t2 : ℤ) (writeOk w2 : Bool)
    (del2 : String → Bool) (key : String)
    (hfired : key ∈ (onSensorReading now (fun _ => false) writeOk st
      data).dispatched.map Prod.fst) :
    (key, false) ∈ (onSensorReading now (fun _ => false) writeOk st
      data).dispatched ∧
    lookupAlertTime (onSensorReading now (fun _ => false) writeOk st
      data).state.lastAlertTimes key = now ∧
    (t2 - now ≤ ALERT_COOLDOWN →
      key ∉ (onSensorReading t2 del2 w2 (onSensorReading now (fun _ => false)
        writeOk st data).state d2).dispatched.map Prod.fst) := by
  have hdisp := onSensorReading_dispatched now (fun _ => false) writeOk st data
  have htbl := onSensorReading_lastAlertTimes now (fun _ => false) writeOk
    st data
  have hdisp2 := onSensorReading_dispatched t2 del2 w2
    (onSensorReading now (fun _ => false) writeOk st data).state d2
  obtain ⟨p, hp, hpk⟩ := List.mem_map.mp hfired
  obtain ⟨k0, b0⟩ := p
  have hk : k0 = key := hpk
  have hb0 : b0 = false := by
    have hdel := processAlerts_delivery now (fun _ => false)
      (computeAlerts st data) st.lastAlertTimes k0 b0
      (by rw [hdisp] at hp; exact hp)
    simpa using hdel
  rw [hk, hb0] at hp
  have hlook : lookupAlertTime (onSensorReading now (fun _ => false) writeOk
      st data).state.lastAlertTimes key = now := by
    rw [htbl]
    exact processAlerts_fired_lookup now (fun _ => false) key
      (computeAlerts st data) st.lastAlertTimes
      (by rw [hdisp] at hfired; exact hfired)
  refine ⟨hp, hlook, ?_⟩
  intro hwin
  have hdue : t2 - lookupAlertTime (onSensorReading now (fun _ => false)
      writeOk st data).state.lastAlertTimes key ≤ ALERT_COOLDOWN := by
    rw [hlook]; exact hwin
  have hsup := processAlerts_not_due t2 del2 key
    (computeAlerts (onSensorReading now (fun _ => false) writeOk st
      data).state d2)
    (onSensorReading now (fun _ => false) writeOk st data).state.lastAlertTimes
    hdue
  rw [hdisp2]
  exact hsup.1

/-- Witness for C8: a failed delivery of the critical-low-water alert still
stamps the cooldown table, and the kind is suppressed within the window. -/
theorem claim_C8_witness :
    ("low_water_critical", false) ∈ (onSensorReading 1000000000
      (fun _ => false) true initialState lowWaterReading).dispatched ∧
    lookupAlertTime (onSensorReading 1000000000 (fun _ => false) true
      initialState lowWaterReading).state.lastAlertTimes
      "low_water_critical" = 1000000000 ∧
    "low_water_critical" ∉ (onSensorReading (1000000000 + 1) (fun _ => true)
      true (onSensorReading 1000000000 (fun _ => false) true initialState
        lowWaterReading).state lowWaterReading).dispatched.map Prod.fst := by
  have hfired : "low_water_critical" ∈ (onSensorReading 1000000000
      (fun _ => false) true initialState lowWaterReading).dispatched.map
      Prod.fst := by
    norm_num [onSensorReading, checkAndSendAlerts, processAlerts,
      computeAlerts, lookupAlertTime, setAlertTime, automaticPumpControl,
      calculateEfficiency, initialState, defaultSystemConfig, lowWaterReading,
      calmVibration, ALERT_COOLDOWN]
  have h := claim_C8_failed_delivery_still_cools initialState lowWaterReading
    lowWaterReading 1000000000 (1000000000 + 1) true true (fun _ => true)
    "low_water_critical" hfired
  exact ⟨h.1, h.2.1, h.2.2 (by norm_num [ALERT_COOLDOWN])⟩

end AcquaSys
